import Mathlib

/-!
Verification of the decision-simulation core of the cross-border fraud-risk
dashboard (`src/streamlit_app.py`).

The core consists of `simulate_decision` (a threshold cascade with a trust
override, lines 140-151 of the source) and the distribution comparison built
from `value_counts(normalize=True) * 100` with `.get(c, 0)` defaults
(lines 157-176).  Scores and thresholds are modelled as exact rationals and
decisions as the Python strings `"ALLOW"`, `"REVIEW"`, `"BLOCK"`.
-/

namespace FraudRisk

/-- One row of the risk-scored transaction dataset, restricted to the fields
the decision-simulation core reads: `ml_risk_score`, `trust_score`, and the
pre-computed original `decision` column. -/
structure Row where
  ml_risk_score : ℚ
  trust_score : ℚ
  decision : String
deriving Repr, DecidableEq

/-- `simulate_decision` from `src/streamlit_app.py` lines 140-151: set a
tentative decision from the risk-score cascade, then overwrite it with
`"ALLOW"` when the trust override fires. -/
def simulate_decision (block_threshold review_threshold trust_override : ℚ)
    (row : Row) : String :=
  let decision :=
    if row.ml_risk_score ≥ block_threshold then "BLOCK"
    else if row.ml_risk_score ≥ review_threshold then "REVIEW"
    else "ALLOW"
  if row.trust_score ≥ trust_override ∧ row.ml_risk_score < block_threshold then
    "ALLOW"
  else decision

/-- A row of the working copy `sim_df`: the original fields plus the
transiently attached `simulated_decision` column. -/
structure SimRow where
  ml_risk_score : ℚ
  trust_score : ℚ
  decision : String
  simulated_decision : String
deriving Repr, DecidableEq

/-- `sim_df = df.copy()` followed by
`sim_df["simulated_decision"] = sim_df.apply(simulate_decision, axis=1)`
(lines 138 and 153): a working copy of the dataset with the simulated label
attached to every row. -/
def run_simulation (block_threshold review_threshold trust_override : ℚ)
    (df : List Row) : List SimRow :=
  df.map fun r =>
    { ml_risk_score := r.ml_risk_score
      trust_score := r.trust_score
      decision := r.decision
      simulated_decision :=
        simulate_decision block_threshold review_threshold trust_override r }

/-- Number of entries of a decision column equal to the category `c`. -/
def countCat (ds : List String) (c : String) : ℕ :=
  (ds.filter fun d => decide (d = c)).length

/-- `series.value_counts(normalize=True) * 100` followed by `.get(c, 0)`:
the percentage of entries equal to `c`, with `0` both for a category absent
from the series and for an empty series (an empty series has an empty
`value_counts`, so `.get` returns the default). -/
def value_counts_pct (ds : List String) (c : String) : ℚ :=
  if ds.length = 0 then 0
  else 100 * (countCat ds c : ℚ) / (ds.length : ℚ)

/-- `sim_dist` (line 157): percentage distribution of the simulated
decisions, read off the working copy. -/
def sim_dist (block_threshold review_threshold trust_override : ℚ)
    (df : List Row) (c : String) : ℚ :=
  value_counts_pct
    ((run_simulation block_threshold review_threshold trust_override df).map
      fun r => r.simulated_decision) c

/-- `orig_dist` (line 158): percentage distribution of the original
`decision` column of the source dataset. -/
def orig_dist (df : List Row) (c : String) : ℚ :=
  value_counts_pct (df.map fun r => r.decision) c

/-- The delta shown by each metric (lines 162-176):
`sim_dist.get(c, 0) - orig_dist.get(c, 0)`. -/
def delta_pct (block_threshold review_threshold trust_override : ℚ)
    (df : List Row) (c : String) : ℚ :=
  sim_dist block_threshold review_threshold trust_override df c -
    orig_dist df c

/-- Forgetting the transient `simulated_decision` column of a working-copy
row recovers a source row. -/
def forget_sim (s : SimRow) : Row :=
  { ml_risk_score := s.ml_risk_score
    trust_score := s.trust_score
    decision := s.decision }

/-- The classifier exactly as the spec words it, for the refinement claim:
steps 1-3 compute a tentative decision (BLOCK if the risk score meets the
block threshold, else REVIEW if it meets the review threshold, else ALLOW);
step 4 makes the final decision ALLOW when the trust score meets the trust
override and the risk score is below the block threshold, and otherwise the
final decision is the tentative one. -/
def classify_spec (block_threshold review_threshold trust_override : ℚ)
    (risk_score trust_score : ℚ) : String :=
  let tentative :=
    if risk_score ≥ block_threshold then "BLOCK"
    else if risk_score ≥ review_threshold then "REVIEW"
    else "ALLOW"
  if trust_score ≥ trust_override ∧ risk_score < block_threshold then "ALLOW"
  else tentative

/-- Unfolding of `simulate_decision` into a single guarded cascade with the
override test first (it only fires when the risk score is below the block
threshold, so reordering is sound). -/
lemma simulate_decision_eq (bt rt tro : ℚ) (row : Row) :
    simulate_decision bt rt tro row =
      if row.trust_score ≥ tro ∧ row.ml_risk_score < bt then "ALLOW"
      else if row.ml_risk_score ≥ bt then "BLOCK"
      else if row.ml_risk_score ≥ rt then "REVIEW"
      else "ALLOW" := rfl

/-- The classifier only ever produces one of the three category strings. -/
lemma simulate_decision_mem (bt rt tro : ℚ) (row : Row) :
    simulate_decision bt rt tro row = "ALLOW" ∨
    simulate_decision bt rt tro row = "REVIEW" ∨
    simulate_decision bt rt tro row = "BLOCK" := by
  rw [simulate_decision_eq]
  split_ifs <;> simp

/-- Counting a category distributes over cons. -/
lemma countCat_cons (a : String) (tl : List String) (c : String) :
    countCat (a :: tl) c = (if a = c then 1 else 0) + countCat tl c := by
  unfold countCat
  by_cases h : a = c <;> simp [List.filter_cons, h, Nat.add_comm]

/-- When every entry of a decision column is one of the three categories,
the three category counts partition the column. -/
lemma countCat_partition (ds : List String)
    (h : ∀ d ∈ ds, d = "ALLOW" ∨ d = "REVIEW" ∨ d = "BLOCK") :
    countCat ds "ALLOW" + countCat ds "REVIEW" + countCat ds "BLOCK" =
      ds.length := by
  induction ds with
  | nil => rfl
  | cons a tl ih =>
    have ha := h a (List.mem_cons_self a tl)
    have htl := ih fun d hd => h d (List.mem_cons_of_mem a hd)
    rw [countCat_cons, countCat_cons, countCat_cons, List.length_cons]
    rcases ha with ha | ha | ha <;> subst ha <;> simp <;> omega

/-- When every entry of a non-empty decision column is one of the three
categories, the three category percentages sum to 100 exactly. -/
lemma value_counts_pct_sum (ds : List String) (hne : ds ≠ [])
    (h : ∀ d ∈ ds, d = "ALLOW" ∨ d = "REVIEW" ∨ d = "BLOCK") :
    value_counts_pct ds "ALLOW" + value_counts_pct ds "REVIEW" +
      value_counts_pct ds "BLOCK" = 100 := by
  have hlen : ds.length ≠ 0 := by simpa [List.length_eq_zero] using hne
  have hq : (ds.length : ℚ) ≠ 0 := Nat.cast_ne_zero.mpr hlen
  have hpart : ((countCat ds "ALLOW" : ℚ) + countCat ds "REVIEW" +
      countCat ds "BLOCK") = (ds.length : ℚ) := by
    exact_mod_cast congrArg (Nat.cast (R := ℚ)) (countCat_partition ds h)
  unfold value_counts_pct
  rw [if_neg hlen, if_neg hlen, if_neg hlen]
  field_simp
  linear_combination 100 * hpart

/-- The simulated-decision column of the working copy, entrywise. -/
lemma run_simulation_map_sim (bt rt tro : ℚ) (df : List Row) :
    (run_simulation bt rt tro df).map (fun r => r.simulated_decision) =
      df.map (simulate_decision bt rt tro) := by
  unfold run_simulation
  rw [List.map_map]
  rfl

/-- Shared form of the sum-to-100 property of the simulated distribution. -/
lemma sim_dist_sum (bt rt tro : ℚ) (df : List Row) (hne : df ≠ []) :
    sim_dist bt rt tro df "ALLOW" + sim_dist bt rt tro df "REVIEW" +
      sim_dist bt rt tro df "BLOCK" = 100 := by
  unfold sim_dist
  rw [run_simulation_map_sim]
  apply value_counts_pct_sum
  · simpa using hne
  · intro d hd
    rcases List.mem_map.mp hd with ⟨r, hr, rfl⟩
    exact simulate_decision_mem bt rt tro r

/-- A category counted zero times has percentage zero. -/
lemma value_counts_pct_of_countCat_zero (ds : List String) (c : String)
    (h : countCat ds c = 0) : value_counts_pct ds c = 0 := by
  unfold value_counts_pct
  split_ifs with hl
  · rfl
  · rw [h]
    simp

/-- C1: for every risk score, trust score and threshold configuration,
`simulate_decision` computes exactly the four-step priority cascade the spec
describes: tentative BLOCK if the risk score meets the block threshold, else
REVIEW if it meets the review threshold, else ALLOW; the final decision is
ALLOW when the trust score meets the trust override and the risk score is
below the block threshold, and otherwise equals the tentative decision. -/
theorem classify_matches_spec_cascade
    (block_threshold review_threshold trust_override : ℚ)
    (risk_score trust_score : ℚ) (d : String) :
    simulate_decision block_threshold review_threshold trust_override
        { ml_risk_score := risk_score, trust_score := trust_score,
          decision := d } =
      classify_spec block_threshold review_threshold trust_override
        risk_score trust_score := rfl

/-- C2: whenever the risk score is at least the block threshold (inclusive),
the classifier returns BLOCK, whatever the trust score is: the trust
override never applies to a BLOCK outcome. -/
theorem block_regardless_of_trust (bt rt tro : ℚ) (row : Row)
    (h : row.ml_risk_score ≥ bt) :
    simulate_decision bt rt tro row = "BLOCK" := by
  rw [simulate_decision_eq]
  rw [if_neg fun hc => absurd h (not_le.mpr hc.2), if_pos h]

/-- Witness for C2 at the inclusive boundary, with a high trust score:
risk 9 = block threshold 9, trust 100 ≥ override 70, and the result is
still BLOCK. -/
theorem block_regardless_of_trust_witness :
    (9 : ℚ) ≥ 9 ∧
      simulate_decision 9 6 70
        { ml_risk_score := 9, trust_score := 100, decision := "ALLOW" } =
        "BLOCK" :=
  ⟨le_refl 9,
    block_regardless_of_trust 9 6 70
      { ml_risk_score := 9, trust_score := 100, decision := "ALLOW" }
      (le_refl 9)⟩

/-- C3: whenever the risk score is below the block threshold and the trust
score is at least the trust override, the classifier returns ALLOW, even
when the risk score meets the review threshold. -/
theorem trust_override_allows (bt rt tro : ℚ) (row : Row)
    (hrisk : row.ml_risk_score < bt) (htrust : row.trust_score ≥ tro) :
    simulate_decision bt rt tro row = "ALLOW" := by
  rw [simulate_decision_eq, if_pos ⟨htrust, hrisk⟩]

/-- Witness for C3 on a would-be REVIEW: risk 7 is below block threshold 9
and meets review threshold 6, trust 75 meets override 70, result ALLOW. -/
theorem trust_override_allows_witness :
    (7 : ℚ) < 9 ∧ (75 : ℚ) ≥ 70 ∧ (7 : ℚ) ≥ 6 ∧
      simulate_decision 9 6 70
        { ml_risk_score := 7, trust_score := 75, decision := "REVIEW" } =
        "ALLOW" :=
  ⟨by decide, by decide, by decide,
    trust_override_allows 9 6 70
      { ml_risk_score := 7, trust_score := 75, decision := "REVIEW" }
      (by decide) (by decide)⟩

/-- C4: under an inverted configuration with the review threshold strictly
above the block threshold, the classifier still evaluates the literal
comparisons (it is a total function that raises nothing and validates
nothing), and the REVIEW branch is unreachable: every input yields ALLOW or
BLOCK. -/
theorem inverted_thresholds_never_review (bt rt tro : ℚ) (row : Row)
    (hinv : rt > bt) :
    simulate_decision bt rt tro row = "ALLOW" ∨
      simulate_decision bt rt tro row = "BLOCK" := by
  rw [simulate_decision_eq]
  split_ifs with h1 h2 h3
  · exact Or.inl rfl
  · exact Or.inr rfl
  · exact absurd (lt_of_lt_of_le hinv h3) (not_lt.mpr (le_of_lt (not_le.mp h2)))
  · exact Or.inl rfl

/-- Witness for C4: review threshold 8 exceeds block threshold 5; on risk 6
with trust 0 the result is ALLOW or BLOCK (it is BLOCK). -/
theorem inverted_thresholds_never_review_witness :
    (8 : ℚ) > 5 ∧
      (simulate_decision 5 8 70
          { ml_risk_score := 6, trust_score := 0, decision := "REVIEW" } =
          "ALLOW" ∨
        simulate_decision 5 8 70
          { ml_risk_score := 6, trust_score := 0, decision := "REVIEW" } =
          "BLOCK") :=
  ⟨by decide,
    inverted_thresholds_never_review 5 8 70
      { ml_risk_score := 6, trust_score := 0, decision := "REVIEW" }
      (by decide)⟩

/-- C5: on every input and every threshold configuration the classifier
produces one of exactly the three strings ALLOW, REVIEW, BLOCK; no branch
produces anything else. -/
theorem classifier_range (bt rt tro : ℚ) (row : Row) :
    simulate_decision bt rt tro row = "ALLOW" ∨
    simulate_decision bt rt tro row = "REVIEW" ∨
    simulate_decision bt rt tro row = "BLOCK" :=
  simulate_decision_mem bt rt tro row

/-- C6: for every non-empty record set, the three simulated category
percentages sum to exactly 100 in exact rational arithmetic, since
`simulated_pct[c] = 100 * count(simulated_decisions == c) / total_count`
and the classifier only emits the three categories. -/
theorem sim_pct_sums_to_100 (bt rt tro : ℚ) (df : List Row)
    (hne : df ≠ []) :
    sim_dist bt rt tro df "ALLOW" + sim_dist bt rt tro df "REVIEW" +
      sim_dist bt rt tro df "BLOCK" = 100 :=
  sim_dist_sum bt rt tro df hne

/-- Witness for C6 on a one-row dataset: the three simulated percentages
sum to 100. -/
theorem sim_pct_sums_to_100_witness :
    ([{ ml_risk_score := 5, trust_score := 50, decision := "ALLOW" }] :
        List Row) ≠ [] ∧
      sim_dist 9 6 70
          [{ ml_risk_score := 5, trust_score := 50, decision := "ALLOW" }]
          "ALLOW" +
        sim_dist 9 6 70
          [{ ml_risk_score := 5, trust_score := 50, decision := "ALLOW" }]
          "REVIEW" +
        sim_dist 9 6 70
          [{ ml_risk_score := 5, trust_score := 50, decision := "ALLOW" }]
          "BLOCK" = 100 :=
  ⟨List.cons_ne_nil _ _,
    sim_pct_sums_to_100 9 6 70
      [{ ml_risk_score := 5, trust_score := 50, decision := "ALLOW" }]
      (List.cons_ne_nil _ _)⟩

/-- C7: on an empty record set every percentage of both distributions is 0
and every delta is 0; the `total_count` guard means no division by zero is
performed. -/
theorem empty_record_set_all_zero (bt rt tro : ℚ) (c : String) :
    sim_dist bt rt tro [] c = 0 ∧ orig_dist [] c = 0 ∧
      delta_pct bt rt tro [] c = 0 := by
  refine ⟨rfl, rfl, ?_⟩
  unfold delta_pct
  norm_num [sim_dist, orig_dist, run_simulation, value_counts_pct]

/-- C8: a category counted zero times in the simulated (resp. original)
decisions is reported as 0 percent for that distribution rather than being
omitted, and enters the delta `sim - orig` as the literal 0. -/
theorem absent_category_reported_zero (bt rt tro : ℚ) (df : List Row)
    (c : String) :
    (countCat ((run_simulation bt rt tro df).map
        fun r => r.simulated_decision) c = 0 →
      sim_dist bt rt tro df c = 0 ∧
        delta_pct bt rt tro df c = 0 - orig_dist df c) ∧
    (countCat (df.map fun r => r.decision) c = 0 →
      orig_dist df c = 0 ∧
        delta_pct bt rt tro df c = sim_dist bt rt tro df c - 0) := by
  constructor
  · intro h
    have hs : sim_dist bt rt tro df c = 0 :=
      value_counts_pct_of_countCat_zero _ c h
    exact ⟨hs, by rw [delta_pct, hs]⟩
  · intro h
    have ho : orig_dist df c = 0 :=
      value_counts_pct_of_countCat_zero _ c h
    exact ⟨ho, by rw [delta_pct, ho]⟩

/-- Witness for C8 on a one-row dataset whose simulated and original
decisions are both ALLOW: the category BLOCK is absent from both and both
distributions report it as 0. -/
theorem absent_category_reported_zero_witness :
    sim_dist 9 6 70
        [{ ml_risk_score := 5, trust_score := 50, decision := "ALLOW" }]
        "BLOCK" = 0 ∧
      orig_dist
        [{ ml_risk_score := 5, trust_score := 50, decision := "ALLOW" }]
        "BLOCK" = 0 :=
  ⟨((absent_category_reported_zero 9 6 70
      [{ ml_risk_score := 5, trust_score := 50, decision := "ALLOW" }]
      "BLOCK").1 (by decide)).1,
    ((absent_category_reported_zero 9 6 70
      [{ ml_risk_score := 5, trust_score := 50, decision := "ALLOW" }]
      "BLOCK").2 (by decide)).1⟩

/-- C9: the simulation never modifies the source dataset: the simulated
labels live only on the working copy, and dropping that transient column
from the working copy gives back every original record unchanged, field for
field, including the original decision column. -/
theorem simulation_preserves_source (bt rt tro : ℚ) (df : List Row) :
    (run_simulation bt rt tro df).map forget_sim = df := by
  induction df with
  | nil => rfl
  | cons a tl ih =>
    simpa [run_simulation, forget_sim] using ih

/-- C10: for every non-empty record set whose original decisions all lie in
the three categories, the three deltas sum to exactly 0, because both the
simulated and the original distribution sum to 100 over the same total
count. -/
theorem delta_pct_sums_to_zero (bt rt tro : ℚ) (df : List Row)
    (hne : df ≠ [])
    (h : ∀ r ∈ df, r.decision = "ALLOW" ∨ r.decision = "REVIEW" ∨
      r.decision = "BLOCK") :
    delta_pct bt rt tro df "ALLOW" + delta_pct bt rt tro df "REVIEW" +
      delta_pct bt rt tro df "BLOCK" = 0 := by
  have hs := sim_dist_sum bt rt tro df hne
  have ho : orig_dist df "ALLOW" + orig_dist df "REVIEW" +
      orig_dist df "BLOCK" = 100 := by
    unfold orig_dist
    apply value_counts_pct_sum
    · simpa using hne
    · intro d hd
      rcases List.mem_map.mp hd with ⟨r, hr, rfl⟩
      exact h r hr
  unfold delta_pct
  linarith

/-- Witness for C10 on a one-row dataset with original decision ALLOW:
the three deltas sum to 0. -/
theorem delta_pct_sums_to_zero_witness :
    delta_pct 9 6 70
        [{ ml_risk_score := 5, trust_score := 50, decision := "ALLOW" }]
        "ALLOW" +
      delta_pct 9 6 70
        [{ ml_risk_score := 5, trust_score := 50, decision := "ALLOW" }]
        "REVIEW" +
      delta_pct 9 6 70
        [{ ml_risk_score := 5, trust_score := 50, decision := "ALLOW" }]
        "BLOCK" = 0 :=
  delta_pct_sums_to_zero 9 6 70
    [{ ml_risk_score := 5, trust_score := 50, decision := "ALLOW" }]
    (List.cons_ne_nil _ _) (by decide)

end FraudRisk
